import Mathlib

/-!
Verification of the core MCP client (`mcphero.adapters.base_adapter.BaseAdapter`),
a session-oriented JSON-RPC-over-HTTP ("Streamable HTTP") client.

The Python source is embedded shallowly:
* JSON documents are modelled by the inductive `Json`; the standard-library
  decoder `json.loads` is an abstract parameter `loads : String → Except PyErr Json`
  (theorems instantiate it or constrain it by hypotheses).
* The adapter object is the record `Adapter`; its mutable fields are threaded
  explicitly.  HTTP I/O is modelled by a script of queued responses: each POST
  consumes the next scripted response and records the request it sent
  (exactly the discipline of the repository's own respx-based tests).
* Python exceptions are values of `PyErr`, returned through `Except`; a raised
  exception leaves all mutations already performed on the object in place,
  which the explicit state threading preserves.
-/

namespace MCPHero

/-- Model of a parsed JSON document (the values produced by `json.loads`). -/
inductive Json where
  | null
  | bool (b : Bool)
  | num (n : Int)
  | str (s : String)
  | arr (elems : List Json)
  | obj (fields : List (String × Json))

/-- Python exceptions that the embedded code can raise. -/
inductive PyErr where
  /-- `httpx.HTTPStatusError`, raised by `raise_for_status` on a non-2xx reply;
  carries the status code and the raw body. -/
  | httpStatusError (status : Nat) (body : String)
  /-- `ValueError` (the spec's `ProtocolError`), raised by `_parse_sse_response`
  when no data field is found; also covers `json.JSONDecodeError`. -/
  | valueError (msg : String)
  /-- `AttributeError`, raised by `.get` on a non-dict value. -/
  | attributeError
  /-- `TypeError`, raised by httpx when a header value is not a string. -/
  | typeError
  /-- No scripted response is left for a request (the test harness's
  side-effect list is exhausted; models a transport-level connection error). -/
  | noResponse
deriving DecidableEq, Repr

/-- `InitMode` from `base_adapter.py`: controls when the MCP session is
initialized (`auto` / `on_fail` / `none`). -/
inductive InitMode where
  | auto
  | on_fail
  | none
deriving DecidableEq, Repr

/-- `PROTOCOL_VERSION = "2025-06-18"` from `base_adapter.py`. -/
def PROTOCOL_VERSION : String := "2025-06-18"

/-- Models `__version__` (read from package metadata at runtime; its exact
value is irrelevant to every claim, only that it is a fixed string). -/
def mcpheroVersion : String := "0.0.0"

/-! ### Python string primitives -/

/-- `as` is a prefix of `bs` (as character lists). -/
def isPrefixL : List Char → List Char → Bool
  | [], _ => true
  | _ :: _, [] => false
  | a :: as, b :: bs => a = b && isPrefixL as bs

/-- Python `s.startswith(pre)`. -/
def pyStartswith (s pre : String) : Bool :=
  isPrefixL pre.data s.data

/-- Python `pat in hay` (substring containment), on character lists. -/
def containsSub (pat : List Char) : List Char → Bool
  | [] => isPrefixL pat []
  | c :: t => isPrefixL pat (c :: t) || containsSub pat t

/-- Python `pat in hay` (substring containment) on strings. -/
def strContains (hay pat : String) : Bool :=
  containsSub pat.data hay.data

/-- Lower-case a string (for case-insensitive HTTP header lookup). -/
def lowerStr (s : String) : String :=
  String.mk (s.data.map Char.toLower)

/-- The line-boundary characters recognised by Python `str.splitlines`. -/
def pyLineBreak (c : Char) : Bool :=
  c = '\n' || c = '\r' || c = '\x0b' || c = '\x0c' || c = '\x1c' ||
  c = '\x1d' || c = '\x1e' || c = '\x85' || c = '\u2028' || c = '\u2029'

/-- Collapse each `"\r\n"` pair into `'\n'` (Python `splitlines` treats the
pair as a single boundary). -/
def normNewlines : List Char → List Char
  | '\r' :: '\n' :: cs => '\n' :: normNewlines cs
  | c :: cs => c :: normNewlines cs
  | [] => []

/-- Worker for `splitlines`: `acc` holds the current line, reversed. -/
def splitlinesAux : List Char → List Char → List String
  | [], acc => if acc.isEmpty then [] else [String.mk acc.reverse]
  | c :: cs, acc =>
    if pyLineBreak c then String.mk acc.reverse :: splitlinesAux cs []
    else splitlinesAux cs (c :: acc)

/-- Python `str.splitlines()`: split at line boundaries, boundary characters
not kept, no trailing empty line for a trailing boundary. -/
def splitlines (s : String) : List String :=
  splitlinesAux (normNewlines s.data) []

/-- `line[5:].lstrip(" ")` from `_parse_sse_response`: drop the 5-character
`data:` prefix, then strip every leading space character. -/
def stripDataLine (line : String) : String :=
  String.mk ((line.data.drop 5).dropWhile (· = ' '))

/-! ### Python dict primitives (insertion-ordered string dicts) -/

/-- Dict lookup (exact, case-sensitive key match, as Python dicts). -/
def dictLookup (d : List (String × String)) (k : String) : Option String :=
  (d.find? (fun kv => kv.1 == k)).map (·.2)

/-- Python `d[k] = v`: replace in place if the key exists, else append. -/
def pyDictSet (d : List (String × String)) (k v : String) :
    List (String × String) :=
  if (dictLookup d k).isSome then
    d.map (fun kv => if kv.1 == k then (k, v) else kv)
  else d ++ [(k, v)]

/-- Python `{**d, **e}` (dict update: entries of `e` win). -/
def pyDictUpdate (d : List (String × String)) :
    List (String × String) → List (String × String)
  | [] => d
  | (k, v) :: rest => pyDictUpdate (pyDictSet d k v) rest

/-- httpx response-header lookup: case-insensitive on the header name. -/
def headerGet (hs : List (String × String)) (name : String) : Option String :=
  (hs.find? (fun kv => lowerStr kv.1 == lowerStr name)).map (·.2)

/-! ### JSON dict access -/

/-- Python `j.get(k, default)`: a lookup on a dict (first matching key);
on any non-dict value `.get` raises `AttributeError`. -/
def dictGet (j : Json) (k : String) (default : Json) : Except PyErr Json :=
  match j with
  | .obj fields =>
    match fields.find? (fun kv => kv.1 == k) with
    | some kv => .ok kv.2
    | Option.none => .ok default
  | _ => .error .attributeError

/-- Python truthiness of a JSON value (`if value:`). -/
def Json.pyTruthy : Json → Bool
  | .null => false
  | .bool b => b
  | .num n => n != 0
  | .str s => s != ""
  | .arr elems => !elems.isEmpty
  | .obj fields => !fields.isEmpty

/-! ### SSE parsing (`_parse_sse_response`, `_parse_response`) -/

/-- The `for line in text.splitlines()` loop of `_parse_sse_response`:
`data_lines` is the buffer of stripped data lines of the current event,
`result` the last completely parsed event.  After the loop, a non-empty
buffer (stream without a trailing blank line) is parsed as one more event. -/
def sseLoop (loads : String → Except PyErr Json) :
    List String → List String → Option Json → Except PyErr (Option Json)
  | [], data_lines, result =>
    if data_lines.isEmpty then .ok result
    else
      match loads (String.intercalate ("\n") data_lines) with
      | .error e => .error e
      | .ok r => .ok (some r)
  | line :: rest, data_lines, result =>
    if pyStartswith line ("data:") then
      sseLoop loads rest (data_lines ++ [stripDataLine line]) result
    else if line == "" then
      if data_lines.isEmpty then sseLoop loads rest [] result
      else
        match loads (String.intercalate ("\n") data_lines) with
        | .error e => .error e
        | .ok r => sseLoop loads rest [] (some r)
    else sseLoop loads rest data_lines result

/-- `BaseAdapter._parse_sse_response`: extract the last JSON-RPC message from
an SSE stream; raises `ValueError` when no data field was found. -/
def _parse_sse_response (loads : String → Except PyErr Json) (text : String) :
    Except PyErr Json :=
  match sseLoop loads (splitlines text) [] Option.none with
  | .error e => .error e
  | .ok Option.none => .error (.valueError ("No data field found in SSE response"))
  | .ok (some r) => .ok r

/-- An HTTP response handed to the client (status, headers, body text). -/
structure HttpResponse where
  status : Nat
  headers : List (String × String)
  body : String

/-- `BaseAdapter._parse_response`: parse as JSON or SSE based on whether the
`content-type` header names `text/event-stream`. -/
def _parse_response (loads : String → Except PyErr Json) (r : HttpResponse) :
    Except PyErr Json :=
  let content_type := (headerGet r.headers ("content-type")).getD ("")
  if strContains content_type ("text/event-stream") then
    _parse_sse_response loads r.body
  else loads r.body

/-! ### The adapter object and the scripted-HTTP state -/

/-- The `BaseAdapter` object: immutable configuration plus mutable session
state.  `init_result` embeds the source field `_initialize_result` and
`session_id` / `protocol_version` embed `_session_id` / `_protocol_version`
(the source spellings collide with reserved words of this development). -/
structure Adapter where
  base_url : String
  headers : List (String × String)
  init_mode : InitMode
  session_id : Option String
  init_result : Option Json
  protocol_version : Option Json

/-- One outbound HTTP POST as recorded on the wire: target URL, the headers
the client attached, and the JSON body it serialised. -/
structure SentRequest where
  url : String
  hdrs : List (String × String)
  body : Json

/-- Execution state: the adapter object, the queue of scripted responses not
yet consumed, the trace of requests sent so far, and a counter producing
fresh unique ids (models `str(uuid.uuid4())`). -/
structure St where
  adapter : Adapter
  script : List HttpResponse
  sent : List SentRequest
  uuidCtr : Nat

/-- Fresh unique request id number `n` (models `str(uuid.uuid4())`; only
freshness matters, never the shape of the string). -/
def mkUuid (n : Nat) : String :=
  "uuid-" ++ toString n

/-- One `client.post(url, json=body)` with the given headers: records the
request and consumes the next scripted response.  An exhausted script is a
transport-level failure. -/
def post (url : String) (hdrs : List (String × String)) (body : Json)
    (st : St) : Except PyErr HttpResponse × St :=
  match st.script with
  | [] => (.error .noResponse, st)
  | r :: rest =>
    (.ok r, { st with script := rest, sent := st.sent ++ [⟨url, hdrs, body⟩] })

/-- httpx `response.is_success`: the 2xx range (`raise_for_status` raises
`HTTPStatusError` exactly when this is false). -/
def is2xx (status : Nat) : Bool :=
  200 ≤ status && status ≤ 299

/-- The dual-media `Accept` value the client always starts its header dict
with. -/
def acceptBoth : String :=
  "application/json, text/event-stream"

/-- `headers = { "Accept": ..., **self.headers }` — the literal `Accept`
entry first, then the caller-supplied extra headers merged over it. -/
def baseHeaders (extra : List (String × String)) : List (String × String) :=
  pyDictUpdate [("Accept", acceptBoth)] extra

/-- The `initialize` JSON-RPC request payload (`init_payload` in the source). -/
def initPayload (idStr : String) : Json :=
  .obj [("id", .str idStr), ("jsonrpc", .str ("2.0")),
        ("method", .str ("initialize")),
        ("params", .obj
          [("protocolVersion", .str PROTOCOL_VERSION),
           ("capabilities", .obj []),
           ("clientInfo", .obj
             [("name", .str ("mcphero")),
              ("version", .str mcpheroVersion)])])]

/-- The `notifications/initialized` notification payload (no `id`). -/
def notificationPayload : Json :=
  .obj [("jsonrpc", .str ("2.0")),
        ("method", .str ("notifications/initialized"))]

/-- The `tools/list` JSON-RPC request payload built by `get_mcp_tools`. -/
def toolsListPayload (idStr : String) : Json :=
  .obj [("id", .str idStr), ("jsonrpc", .str ("2.0")),
        ("method", .str ("tools/list")), ("params", .obj [])]

/-- The `tools/call` JSON-RPC request payload built by `call_mcp_tool`. -/
def toolsCallPayload (idStr tool_name : String) (arguments : Json) : Json :=
  .obj [("id", .str idStr), ("jsonrpc", .str ("2.0")),
        ("method", .str ("tools/call")),
        ("params", .obj [("name", .str tool_name),
                         ("arguments", arguments)])]

/-- `BaseAdapter.initialize` (the source name is reserved here): return the
cached handshake result when present; otherwise send the `initialize`
request, raise on non-2xx, record the `Mcp-Session-Id` response header (when
truthy), parse the body, record the negotiated protocol version
(`result.get("result", ...).get("protocolVersion", PROTOCOL_VERSION)`) and
the full body, then send the `notifications/initialized` notification whose
response status is never inspected. -/
def init_session (loads : String → Except PyErr Json) (st : St) :
    Except PyErr Json × St :=
  match st.adapter.init_result with
  | some r => (.ok r, st)
  | Option.none =>
    let idStr := mkUuid st.uuidCtr
    let st : St := { st with uuidCtr := st.uuidCtr + 1 }
    let init_payload := initPayload idStr
    let headers := baseHeaders st.adapter.headers
    match post st.adapter.base_url headers init_payload st with
    | (.error e, st) => (.error e, st)
    | (.ok response, st) =>
      if is2xx response.status then
        let st : St :=
          match headerGet response.headers ("Mcp-Session-Id") with
          | some s =>
            if s != "" then
              { st with adapter := { st.adapter with session_id := some s } }
            else st
          | Option.none => st
        match _parse_response loads response with
        | .error e => (.error e, st)
        | .ok result =>
          match dictGet result ("result") (.obj []) with
          | .error e => (.error e, st)
          | .ok outer =>
            match dictGet outer ("protocolVersion") (.str PROTOCOL_VERSION) with
            | .error e => (.error e, st)
            | .ok pv =>
              let st : St :=
                { st with adapter := { st.adapter with
                    protocol_version := some pv,
                    init_result := some result } }
              let notify_headers :=
                match st.adapter.session_id with
                | some s =>
                  if s != "" then pyDictSet headers ("Mcp-Session-Id") s
                  else headers
                | Option.none => headers
              match post st.adapter.base_url notify_headers
                  notificationPayload st with
              | (.error e, st) => (.error e, st)
              | (.ok _, st) => (.ok result, st)
      else (.error (.httpStatusError response.status response.body), st)

/-- `BaseAdapter._ensure_initialized`: run the handshake first when the
policy is `auto`. -/
def _ensure_init_done (loads : String → Except PyErr Json) (st : St) :
    Except PyErr Unit × St :=
  if st.adapter.init_mode = InitMode.auto then
    match init_session loads st with
    | (.error e, st) => (.error e, st)
    | (.ok _, st) => (.ok (), st)
  else (.ok (), st)

/-- The request headers `_make_request` assembles: the `Accept`/extra-header
dict, plus `Mcp-Session-Id` when the stored session id is truthy, plus
`MCP-Protocol-Version` when the stored version is truthy (httpx rejects a
non-string header value with `TypeError` when the client is constructed). -/
def requestHeaders (a : Adapter) : Except PyErr (List (String × String)) :=
  let headers := baseHeaders a.headers
  let headers :=
    match a.session_id with
    | some s => if s != "" then pyDictSet headers ("Mcp-Session-Id") s else headers
    | Option.none => headers
  match a.protocol_version with
  | some v =>
    if v.pyTruthy then
      match v with
      | .str s => .ok (pyDictSet headers ("MCP-Protocol-Version") s)
      | _ => .error .typeError
    else .ok headers
  | Option.none => .ok headers

/-- `BaseAdapter._make_request`: POST the envelope, and on `HTTPStatusError`
retry once — after running the handshake — exactly when this is the first
attempt, the policy is `on_fail`, and the handshake has not completed;
otherwise re-raise.  A 2xx reply is parsed (JSON or SSE); parse failures are
not caught.  The source's `_retry : Bool` flag is modelled by the number of
retries still allowed (`_retry=True` is `1`, `_retry=False` is `0`), which
makes the recursion structural. -/
def _make_request (loads : String → Except PyErr Json) (data : Json) :
    Nat → St → Except PyErr Json × St
  | retries, st =>
    match requestHeaders st.adapter with
    | .error e => (.error e, st)
    | .ok headers =>
      match post st.adapter.base_url headers data st with
      | (.error e, st) => (.error e, st)
      | (.ok response, st) =>
        if is2xx response.status then
          match _parse_response loads response with
          | .error e => (.error e, st)
          | .ok r => (.ok r, st)
        else
          match retries with
          | Nat.succ retries' =>
            if st.adapter.init_mode = InitMode.on_fail ∧
                st.adapter.init_result.isNone = true then
              match init_session loads st with
              | (.error e, st) => (.error e, st)
              | (.ok _, st) => _make_request loads data retries' st
            else (.error (.httpStatusError response.status response.body), st)
          | 0 => (.error (.httpStatusError response.status response.body), st)

/-- `BaseAdapter.get_mcp_tools`: ensure the handshake per policy, then send a
`tools/list` request with a fresh id (`_retry=True`, i.e. one retry allowed). -/
def get_mcp_tools (loads : String → Except PyErr Json) (st : St) :
    Except PyErr Json × St :=
  match _ensure_init_done loads st with
  | (.error e, st) => (.error e, st)
  | (.ok _, st) =>
    let idStr := mkUuid st.uuidCtr
    let st : St := { st with uuidCtr := st.uuidCtr + 1 }
    _make_request loads (toolsListPayload idStr) 1 st

/-- `BaseAdapter.call_mcp_tool`: ensure the handshake per policy, then send a
`tools/call` request with a fresh id (`_retry=True`, i.e. one retry allowed). -/
def call_mcp_tool (loads : String → Except PyErr Json)
    (tool_name : String) (arguments : Json) (st : St) :
    Except PyErr Json × St :=
  match _ensure_init_done loads st with
  | (.error e, st) => (.error e, st)
  | (.ok _, st) =>
    let idStr := mkUuid st.uuidCtr
    let st : St := { st with uuidCtr := st.uuidCtr + 1 }
    _make_request loads (toolsCallPayload idStr tool_name arguments) 1 st

/-- A freshly constructed adapter (`BaseAdapter.__init__`): trailing slashes
stripped from the base URL, no session id, no cached handshake, no
negotiated version. -/
def freshAdapter (base_url : String) (headers : List (String × String))
    (init_mode : InitMode) : Adapter :=
  { base_url := String.mk (base_url.data.reverse.dropWhile (· = '/')).reverse
    headers := headers
    init_mode := init_mode
    session_id := Option.none
    init_result := Option.none
    protocol_version := Option.none }

/-- A fresh execution state over a given response script. -/
def mkSt (a : Adapter) (script : List HttpResponse) : St :=
  { adapter := a, script := script, sent := [], uuidCtr := 0 }

/-! ### SSE stream builders

A canonical SSE body is described by the list of its events, each event by
the list of payload strings of its `data:` lines. -/

/-- The `data:` lines of one event (payload after the field separator). -/
def sseEventLines (ev : List String) : List String :=
  ev.map (fun p => "data: " ++ p)

/-- The lines of an SSE stream whose every event is terminated by a blank
line (the trailing blank line included). -/
def sseLinesOf : List (List String) → List String
  | [] => []
  | ev :: rest => sseEventLines ev ++ "" :: sseLinesOf rest

/-- The lines of an SSE stream whose final event is not followed by a
trailing blank line. -/
def sseLinesNT : List (List String) → List String
  | [] => []
  | [ev] => sseEventLines ev
  | ev :: rest => sseEventLines ev ++ "" :: sseLinesNT rest

/-! ### Lemmas on the SSE parser -/

theorem isPrefixL_append_self (xs ys : List Char) :
    isPrefixL xs (xs ++ ys) = true := by
  induction xs with
  | nil => rfl
  | cons c cs ih => simp [isPrefixL, ih]

theorem pyStartswith_append (pre s : String) :
    pyStartswith (pre ++ s) pre = true := by
  unfold pyStartswith
  rw [String.data_append]
  exact isPrefixL_append_self _ _

theorem pyStartswith_dataline (p : String) :
    pyStartswith ("data: " ++ p) ("data:") = true := by
  unfold pyStartswith
  rw [String.data_append]
  rw [show ("data: ").data = "data:".data ++ [' '] from rfl, List.append_assoc]
  exact isPrefixL_append_self _ _

theorem dropWhile_of_not_startswith (p : String)
    (hp : pyStartswith p (" ") = false) :
    p.data.dropWhile (· = ' ') = p.data := by
  unfold pyStartswith at hp
  rw [show (" ").data = [' '] from rfl] at hp
  cases h : p.data with
  | nil => simp [List.dropWhile]
  | cons c cs =>
    rw [h] at hp
    have hcc : c ≠ ' ' := by
      intro hcc
      rw [hcc] at hp
      simp [isPrefixL] at hp
    simp [List.dropWhile_cons, hcc]

theorem dropWhile_replicate_space (k : Nat) (l : List Char) :
    (List.replicate k ' ' ++ l).dropWhile (· = ' ') = l.dropWhile (· = ' ') := by
  induction k with
  | zero => rfl
  | succ n ih => simp [List.replicate_succ, List.dropWhile, ih]

theorem string_mk_data (s : String) : String.mk s.data = s := by
  cases s
  rfl

theorem stripDataLine_dataline (p : String)
    (hp : pyStartswith p (" ") = false) :
    stripDataLine ("data: " ++ p) = p := by
  unfold stripDataLine
  rw [String.data_append, show ("data: ").data = ['d', 'a', 't', 'a', ':', ' '] from rfl]
  simp only [List.cons_append, List.drop_succ_cons, List.drop_zero, List.nil_append]
  rw [show (' ' :: p.data).dropWhile (· = ' ') = p.data.dropWhile (· = ' ') by
        simp [List.dropWhile]]
  rw [dropWhile_of_not_startswith p hp, string_mk_data]

/-- Processing one blank-terminated event: the buffered lines are parsed as
one document and become the current result. -/
theorem sseLoop_event (jl : String → Json) (ps : List String)
    (hps : ∀ p ∈ ps, pyStartswith p (" ") = false) (acc : List String)
    (hne : acc ++ ps ≠ []) (res : Option Json) (rest : List String) :
    sseLoop (fun s => .ok (jl s)) (sseEventLines ps ++ "" :: rest) acc res
      = sseLoop (fun s => .ok (jl s)) rest []
          (some (jl (String.intercalate ("\n") (acc ++ ps)))) := by
  induction ps generalizing acc res with
  | nil =>
    cases acc with
    | nil => exact absurd rfl hne
    | cons a as =>
      simp [sseLoop, sseEventLines, show pyStartswith ("") ("data:") = false from rfl]
  | cons p ps ih =>
    have hp := hps p (by simp)
    simp only [sseEventLines, List.map_cons, List.cons_append]
    rw [sseLoop]
    simp only [pyStartswith_dataline, if_true]
    rw [stripDataLine_dataline p hp]
    have := ih (fun q hq => hps q (by simp [hq])) (acc ++ [p]) (by simp) res
    simp only [sseEventLines] at this
    rw [List.append_assoc] at this
    simpa using this

/-- Processing a final event that the stream ends on without a trailing
blank line: the non-empty buffer is parsed as one more event. -/
theorem sseLoop_tail (jl : String → Json) (ps : List String)
    (hps : ∀ p ∈ ps, pyStartswith p (" ") = false) (acc : List String)
    (hne : acc ++ ps ≠ []) (res : Option Json) :
    sseLoop (fun s => .ok (jl s)) (sseEventLines ps) acc res
      = .ok (some (jl (String.intercalate ("\n") (acc ++ ps)))) := by
  induction ps generalizing acc res with
  | nil =>
    cases acc with
    | nil => exact absurd rfl hne
    | cons a as => simp [sseLoop, sseEventLines]
  | cons p ps ih =>
    have hp := hps p (by simp)
    simp only [sseEventLines, List.map_cons]
    rw [sseLoop]
    simp only [pyStartswith_dataline, if_true]
    rw [stripDataLine_dataline p hp]
    have := ih (fun q hq => hps q (by simp [hq])) (acc ++ [p]) (by simp) res
    simp only [sseEventLines] at this
    rw [List.append_assoc] at this
    simpa using this

/-- A stream of blank-terminated events parses to the last event's payload. -/
theorem sseLoop_linesOf (jl : String → Json) (evs : List (List String))
    (lastEv : List String)
    (hev : ∀ ev ∈ evs ++ [lastEv], ev ≠ [])
    (hsp : ∀ ev ∈ evs ++ [lastEv], ∀ p ∈ ev, pyStartswith p (" ") = false)
    (res : Option Json) :
    sseLoop (fun s => .ok (jl s)) (sseLinesOf (evs ++ [lastEv])) [] res
      = .ok (some (jl (String.intercalate ("\n") lastEv))) := by
  induction evs generalizing res with
  | nil =>
    simp only [List.nil_append, sseLinesOf]
    rw [sseLoop_event jl lastEv (hsp lastEv (by simp)) []
      (by simpa using hev lastEv (by simp)) res []]
    simp [sseLoop]
  | cons ev evs ih =>
    simp only [List.cons_append, sseLinesOf, List.append_eq]
    rw [sseLoop_event jl ev (hsp ev (by simp)) []
      (by simpa using hev ev (by simp)) res (sseLinesOf (evs ++ [lastEv]))]
    exact ih (fun e he => hev e (by simp at he ⊢; tauto))
      (fun e he => hsp e (by simp at he ⊢; tauto)) _

/-- A stream whose final event lacks the trailing blank line still parses to
the final event's payload. -/
theorem sseLoop_linesNT (jl : String → Json) (evs : List (List String))
    (lastEv : List String)
    (hev : ∀ ev ∈ evs ++ [lastEv], ev ≠ [])
    (hsp : ∀ ev ∈ evs ++ [lastEv], ∀ p ∈ ev, pyStartswith p (" ") = false)
    (res : Option Json) :
    sseLoop (fun s => .ok (jl s)) (sseLinesNT (evs ++ [lastEv])) [] res
      = .ok (some (jl (String.intercalate ("\n") lastEv))) := by
  induction evs generalizing res with
  | nil =>
    simp only [List.nil_append, sseLinesNT]
    exact sseLoop_tail jl lastEv (hsp lastEv (by simp)) []
      (by simpa using hev lastEv (by simp)) res
  | cons ev evs ih =>
    have hNT : sseLinesNT (ev :: (evs ++ [lastEv]))
        = sseEventLines ev ++ "" :: sseLinesNT (evs ++ [lastEv]) := by
      cases evs <;> rfl
    simp only [List.cons_append, hNT]
    rw [sseLoop_event jl ev (hsp ev (by simp)) []
      (by simpa using hev ev (by simp)) res (sseLinesNT (evs ++ [lastEv]))]
    exact ih (fun e he => hev e (by simp at he ⊢; tauto))
      (fun e he => hsp e (by simp at he ⊢; tauto)) _

/-- A stream with no `data:` line at all leaves the result untouched. -/
theorem sseLoop_noData (loads : String → Except PyErr Json)
    (lines : List String)
    (h : ∀ l ∈ lines, pyStartswith l ("data:") = false) (res : Option Json) :
    sseLoop loads lines [] res = .ok res := by
  induction lines generalizing res with
  | nil => rfl
  | cons l rest ih =>
    rw [sseLoop]
    have h1 : pyStartswith l ("data:") = false := h l (by simp)
    by_cases hb : l = ""
    · subst hb
      simp only [h1, Bool.false_eq_true, if_false]
      simp only [show ("" == "") = true from rfl, if_true, List.isEmpty_nil]
      exact ih (fun q hq => h q (by simp [hq])) res
    · have hb' : (l == "") = false := by simpa using hb
      simp only [h1, hb', Bool.false_eq_true, if_false]
      exact ih (fun q hq => h q (by simp [hq])) res

/-! ### Shared lemmas on the adapter operations -/

theorem is2xx_200 : is2xx 200 = true := rfl

theorem is2xx_202 : is2xx 202 = true := rfl

/-- Once the handshake result is cached, the handshake is a pure no-op:
the cached value is returned, nothing is sent, no state changes. -/
theorem init_session_cached (loads : String → Except PyErr Json) (st : St)
    (r : Json) (h : st.adapter.init_result = some r) :
    init_session loads st = (.ok r, st) := by
  unfold init_session
  rw [h]

/-- `N` successive `initialize()` calls, collecting their results (the shape
of the repository's own idempotency test). -/
def initNTimes (loads : String → Except PyErr Json) :
    Nat → St → Except PyErr (List Json) × St
  | 0, st => (.ok [], st)
  | n + 1, st =>
    match init_session loads st with
    | (.error e, st) => (.error e, st)
    | (.ok r, st) =>
      match initNTimes loads n st with
      | (.error e, st) => (.error e, st)
      | (.ok rs, st) => (.ok (r :: rs), st)

theorem initNTimes_cached (loads : String → Except PyErr Json) (n : Nat)
    (st : St) (r : Json) (h : st.adapter.init_result = some r) :
    initNTimes loads n st = (.ok (List.replicate n r), st) := by
  induction n with
  | zero => rfl
  | succ m ih =>
    simp only [initNTimes]
    rw [init_session_cached loads st r h]
    dsimp only
    rw [ih]
    simp [List.replicate_succ]

/-! ### Dict lookup lemmas -/

theorem dictLookup_cons (kv : String × String) (rest : List (String × String))
    (k : String) :
    dictLookup (kv :: rest) k
      = if kv.1 == k then some kv.2 else dictLookup rest k := by
  by_cases h : kv.1 == k <;> simp [dictLookup, List.find?, h]

theorem dictLookup_map_replace (d : List (String × String)) (k1 v1 k : String)
    (h : (k1 == k) = false) :
    dictLookup (d.map (fun kv => if kv.1 == k1 then (k1, v1) else kv)) k
      = dictLookup d k := by
  induction d with
  | nil => rfl
  | cons kv rest ih =>
    simp only [List.map_cons]
    by_cases h2 : kv.1 == k1
    · have hk : kv.1 = k1 := by simpa using h2
      simp only [h2, if_true]
      rw [dictLookup_cons, dictLookup_cons, hk, h, ih]
      simp
    · simp only [h2, Bool.false_eq_true, if_false]
      rw [dictLookup_cons, dictLookup_cons, ih]

theorem dictLookup_append_single_ne (d : List (String × String))
    (k1 v1 k : String) (h : (k1 == k) = false) :
    dictLookup (d ++ [(k1, v1)]) k = dictLookup d k := by
  induction d with
  | nil => simp [dictLookup, List.find?, h]
  | cons kv rest ih =>
    rw [List.cons_append, dictLookup_cons, dictLookup_cons, ih]

theorem dictLookup_append_single_self (d : List (String × String))
    (k v : String) (h : dictLookup d k = Option.none) :
    dictLookup (d ++ [(k, v)]) k = some v := by
  induction d with
  | nil => simp [dictLookup, List.find?]
  | cons kv rest ih =>
    rw [dictLookup_cons] at h
    rw [List.cons_append, dictLookup_cons]
    by_cases h2 : kv.1 == k
    · rw [if_pos h2] at h
      exact absurd h (by simp)
    · rw [if_neg h2] at h ⊢
      exact ih h

theorem dictLookup_map_replace_self (d : List (String × String))
    (k v : String) (h : (dictLookup d k).isSome = true) :
    dictLookup (d.map (fun kv => if kv.1 == k then (k, v) else kv)) k
      = some v := by
  induction d with
  | nil => simp [dictLookup] at h
  | cons kv rest ih =>
    simp only [List.map_cons]
    by_cases h2 : kv.1 == k
    · simp only [h2, if_true]
      rw [dictLookup_cons]
      simp
    · simp only [h2, Bool.false_eq_true, if_false]
      rw [dictLookup_cons, if_neg h2]
      rw [dictLookup_cons, if_neg h2] at h
      exact ih h

/-- `d[k] = v` makes `k` map to `v`. -/
theorem dictLookup_pyDictSet_self (d : List (String × String)) (k v : String) :
    dictLookup (pyDictSet d k v) k = some v := by
  unfold pyDictSet
  by_cases h : (dictLookup d k).isSome
  · rw [if_pos h]
    exact dictLookup_map_replace_self d k v h
  · rw [if_neg h]
    exact dictLookup_append_single_self d k v (by
      cases hd : dictLookup d k
      · rfl
      · exact absurd (by rw [hd]; rfl) h)

/-- `d[k1] = v1` leaves every other key unchanged. -/
theorem dictLookup_pyDictSet_ne (d : List (String × String))
    (k1 v1 k : String) (h : (k1 == k) = false) :
    dictLookup (pyDictSet d k1 v1) k = dictLookup d k := by
  unfold pyDictSet
  by_cases h2 : (dictLookup d k1).isSome
  · rw [if_pos h2]
    exact dictLookup_map_replace d k1 v1 k h
  · rw [if_neg h2]
    exact dictLookup_append_single_ne d k1 v1 k h

/-- Merging a dict that does not bind `k` leaves `k`'s binding unchanged. -/
theorem dictLookup_pyDictUpdate_none (e d : List (String × String))
    (k : String) (he : dictLookup e k = Option.none) :
    dictLookup (pyDictUpdate d e) k = dictLookup d k := by
  induction e generalizing d with
  | nil => rfl
  | cons kv rest ih =>
    rw [dictLookup_cons] at he
    by_cases h2 : kv.1 == k
    · rw [if_pos h2] at he
      exact absurd he (by simp)
    · rw [if_neg h2] at he
      unfold pyDictUpdate
      rw [ih _ he, dictLookup_pyDictSet_ne _ _ _ _ (by simpa using h2)]

/-- A key present in an insertion-ordered dict has a `some` lookup. -/
theorem dictLookup_isSome_of_mem (e : List (String × String))
    (k v : String) (h : (k, v) ∈ e) : (dictLookup e k).isSome = true := by
  induction e with
  | nil => simp at h
  | cons kv rest ih =>
    rw [dictLookup_cons]
    by_cases h2 : kv.1 == k
    · simp [h2]
    · rw [if_neg h2]
      rcases List.mem_cons.mp h with h3 | h3
      · rw [← h3] at h2
        simp at h2
      · exact ih h3

/-- A key absent from the keys of an insertion-ordered dict looks up to
nothing. -/
theorem dictLookup_eq_none_of_not_mem_keys (e : List (String × String))
    (k : String) (h : k ∉ e.map Prod.fst) : dictLookup e k = Option.none := by
  induction e with
  | nil => rfl
  | cons kv rest ih =>
    simp only [List.map_cons, List.mem_cons] at h
    push_neg at h
    rw [dictLookup_cons, if_neg (by simpa using fun hh => h.1 hh.symm)]
    exact ih h.2

/-- Merging a dict with pairwise-distinct keys makes each of its pairs the
final binding of its key. -/
theorem dictLookup_pyDictUpdate_mem (e d : List (String × String))
    (hnd : (e.map Prod.fst).Nodup) (k v : String) (h : (k, v) ∈ e) :
    dictLookup (pyDictUpdate d e) k = some v := by
  induction e generalizing d with
  | nil => simp at h
  | cons kv rest ih =>
    simp only [List.map_cons, List.nodup_cons] at hnd
    unfold pyDictUpdate
    rcases List.mem_cons.mp h with h3 | h3
    · have hk1 : kv.1 = k := by rw [← h3]
      have hk2 : kv.2 = v := by rw [← h3]
      have hknot : k ∉ rest.map Prod.fst := by
        rw [← hk1]
        exact hnd.1
      rw [dictLookup_pyDictUpdate_none _ _ _
        (dictLookup_eq_none_of_not_mem_keys rest k hknot)]
      rw [hk1, hk2]
      exact dictLookup_pyDictSet_self d k v
    · exact ih _ hnd.2 h3

/-! ### Adapter-state preservation after a completed handshake -/

/-- Once the handshake result is cached, `_make_request` never mutates the
adapter object (in particular it never re-runs the handshake). -/
theorem make_request_adapter (loads : String → Except PyErr Json)
    (data : Json) (n : Nat) (st : St)
    (h : st.adapter.init_result.isSome = true) :
    (_make_request loads data n st).2.adapter = st.adapter := by
  rw [_make_request]
  cases hh : requestHeaders st.adapter with
  | error e => rfl
  | ok headers =>
    unfold post
    cases hscript : st.script with
    | nil => rfl
    | cons r rest =>
      simp only []
      by_cases h2 : is2xx r.status
      · simp only [h2, if_true]
        cases _parse_response loads r <;> rfl
      · simp only [h2, Bool.false_eq_true, if_false]
        cases n with
        | zero => rfl
        | succ n' =>
          have h3 : st.adapter.init_result.isNone = false := by
            cases hi : st.adapter.init_result
            · rw [hi] at h
              simp at h
            · rfl
          simp only [h3]
          simp

/-- The operations a caller can run on one adapter instance. -/
inductive Op where
  | opInit
  | opTools
  | opCall (tool_name : String) (arguments : Json)

/-- Run one public operation. -/
def runOp (loads : String → Except PyErr Json) : Op → St → Except PyErr Json × St
  | .opInit => init_session loads
  | .opTools => get_mcp_tools loads
  | .opCall tool_name arguments => call_mcp_tool loads tool_name arguments

/-- Run a sequence of operations, keeping the state (results and raised
errors are dropped). -/
def runOps (loads : String → Except PyErr Json) : List Op → St → St
  | [], st => st
  | op :: ops, st => runOps loads ops (runOp loads op st).2

/-- Once the handshake result is cached, no public operation mutates the
adapter object. -/
theorem runOp_adapter (loads : String → Except PyErr Json) (op : Op) (st : St)
    (h : st.adapter.init_result.isSome = true) :
    (runOp loads op st).2.adapter = st.adapter := by
  obtain ⟨r, hr⟩ : ∃ r, st.adapter.init_result = some r := by
    cases hi : st.adapter.init_result
    · rw [hi] at h
      simp at h
    · exact ⟨_, rfl⟩
  cases op with
  | opInit =>
    show (init_session loads st).2.adapter = st.adapter
    rw [init_session_cached loads st r hr]
  | opTools =>
    show (get_mcp_tools loads st).2.adapter = st.adapter
    unfold get_mcp_tools _ensure_init_done
    by_cases hm : st.adapter.init_mode = InitMode.auto
    · simp only [hm, if_true]
      rw [init_session_cached loads st r hr]
      exact make_request_adapter loads _ 1 _ (by simpa using h)
    · simp only [hm, if_false]
      exact make_request_adapter loads _ 1 _ (by simpa using h)
  | opCall tool_name arguments =>
    show (call_mcp_tool loads tool_name arguments st).2.adapter = st.adapter
    unfold call_mcp_tool _ensure_init_done
    by_cases hm : st.adapter.init_mode = InitMode.auto
    · simp only [hm, if_true]
      rw [init_session_cached loads st r hr]
      exact make_request_adapter loads _ 1 _ (by simpa using h)
    · simp only [hm, if_false]
      exact make_request_adapter loads _ 1 _ (by simpa using h)

/-- Once the handshake result is cached, no sequence of operations mutates
the adapter object. -/
theorem runOps_adapter (loads : String → Except PyErr Json) (ops : List Op)
    (st : St) (h : st.adapter.init_result.isSome = true) :
    (runOps loads ops st).adapter = st.adapter := by
  induction ops generalizing st with
  | nil => rfl
  | cons op ops ih =>
    show (runOps loads ops (runOp loads op st).2).adapter = st.adapter
    rw [ih _ (by rw [runOp_adapter loads op st h]; exact h),
      runOp_adapter loads op st h]

/-! ### Scripted responses and a concrete decoder shared by the witnesses -/

/-- A response with the given status and body and no headers. -/
def respOf (status : Nat) (body : String) : HttpResponse :=
  { status := status, headers := [], body := body }

/-- A successful `initialize` response carrying session id `sess-1`. -/
def initOkResp : HttpResponse :=
  { status := 200, headers := [("Mcp-Session-Id", "sess-1")], body := "INITBODY" }

/-- The 202 acknowledgement of the `notifications/initialized` POST. -/
def notifyAck : HttpResponse :=
  { status := 202, headers := [], body := "" }

/-- Concrete decoder for witnesses: the two scripted bodies decode to fixed
documents, everything else fails to decode. -/
def loadsW : String → Except PyErr Json := fun s =>
  if s = "INITBODY" then
    .ok (.obj [("result", .obj [("protocolVersion", .str ("PV"))])])
  else if s = "TOOLSBODY" then .ok (.obj [("ok", .bool true)])
  else .error (.valueError ("bad json"))

/-- The document `loadsW` decodes `INITBODY` to. -/
def jW : Json := .obj [("result", .obj [("protocolVersion", .str ("PV"))])]

/-- The `result` member of `jW`. -/
def outerW : Json := .obj [("protocolVersion", .str ("PV"))]

/-- The document `loadsW` decodes `TOOLSBODY` to. -/
def tjW : Json := .obj [("ok", .bool true)]

/-! ### Claim C1 -/

/-- C1: a request failing with a non-2xx status under policy `on_fail`
(`lazyRetry`), with the handshake not yet completed, on the first attempt,
triggers the handshake and then exactly one resend of the identical envelope
(same dict, same id); when the retry also fails, the retry's error (status
`s2`, not `s1`) is what propagates.  In every other case — handshake already
complete, policy `none` (disabled), policy `auto` (eager, whose handshake
runs first so a failing request is never retried), or an already-retried
attempt — the failure propagates after exactly one HTTP attempt.  The
scripted handshake server is parameterised by the decoder hypotheses. -/
theorem claim_C1_retry_policy (s1 s2 : Nat) (b1 b2 : String)
    (loads : String → Except PyErr Json) (j outer tj j0 : Json) (pv : String)
    (tool : String) (args : Json)
    (h1 : is2xx s1 = false) (h2 : is2xx s2 = false)
    (hl : loads ("INITBODY") = .ok j)
    (hr : dictGet j ("result") (.obj []) = .ok outer)
    (hp : dictGet outer ("protocolVersion") (.str PROTOCOL_VERSION)
      = .ok (.str pv))
    (hpv : pv ≠ "")
    (ht : loads ("TOOLSBODY") = .ok tj) :
    (get_mcp_tools loads (mkSt (freshAdapter ("http://x") [] .on_fail)
        [respOf s1 b1, initOkResp, notifyAck, respOf s2 b2])).1
      = .error (.httpStatusError s2 b2)
    ∧ (get_mcp_tools loads (mkSt (freshAdapter ("http://x") [] .on_fail)
        [respOf s1 b1, initOkResp, notifyAck, respOf s2 b2])).2.sent.map (·.body)
      = [toolsListPayload (mkUuid 0), initPayload (mkUuid 1),
         notificationPayload, toolsListPayload (mkUuid 0)]
    ∧ (get_mcp_tools loads (mkSt (freshAdapter ("http://x") [] .on_fail)
        [respOf s1 b1, initOkResp, notifyAck, respOf 200 ("TOOLSBODY")])).1
      = .ok tj
    ∧ (get_mcp_tools loads (mkSt (freshAdapter ("http://x") [] .on_fail)
        [respOf s1 b1, initOkResp, notifyAck, respOf 200 ("TOOLSBODY")])).2.sent.map (·.body)
      = [toolsListPayload (mkUuid 0), initPayload (mkUuid 1),
         notificationPayload, toolsListPayload (mkUuid 0)]
    ∧ (get_mcp_tools loads (mkSt
        { freshAdapter ("http://x") [] .on_fail with init_result := some j0 }
        [respOf s1 b1])).1 = .error (.httpStatusError s1 b1)
    ∧ (get_mcp_tools loads (mkSt
        { freshAdapter ("http://x") [] .on_fail with init_result := some j0 }
        [respOf s1 b1])).2.sent.map (·.body) = [toolsListPayload (mkUuid 0)]
    ∧ (get_mcp_tools loads (mkSt (freshAdapter ("http://x") [] .none)
        [respOf s1 b1])).1 = .error (.httpStatusError s1 b1)
    ∧ (get_mcp_tools loads (mkSt (freshAdapter ("http://x") [] .none)
        [respOf s1 b1])).2.sent.map (·.body) = [toolsListPayload (mkUuid 0)]
    ∧ (get_mcp_tools loads (mkSt (freshAdapter ("http://x") [] .auto)
        [initOkResp, notifyAck, respOf s1 b1])).1
      = .error (.httpStatusError s1 b1)
    ∧ (get_mcp_tools loads (mkSt (freshAdapter ("http://x") [] .auto)
        [initOkResp, notifyAck, respOf s1 b1])).2.sent.map (·.body)
      = [initPayload (mkUuid 0), notificationPayload, toolsListPayload (mkUuid 1)]
    ∧ (_make_request loads (toolsListPayload (mkUuid 0)) 0
        (mkSt (freshAdapter ("http://x") [] .on_fail) [respOf s1 b1])).1
      = .error (.httpStatusError s1 b1)
    ∧ (_make_request loads (toolsListPayload (mkUuid 0)) 0
        (mkSt (freshAdapter ("http://x") [] .on_fail) [respOf s1 b1])).2.sent.map (·.body)
      = [toolsListPayload (mkUuid 0)]
    ∧ (call_mcp_tool loads tool args (mkSt (freshAdapter ("http://x") [] .on_fail)
        [respOf s1 b1, initOkResp, notifyAck, respOf s2 b2])).1
      = .error (.httpStatusError s2 b2)
    ∧ (call_mcp_tool loads tool args (mkSt (freshAdapter ("http://x") [] .on_fail)
        [respOf s1 b1, initOkResp, notifyAck, respOf s2 b2])).2.sent.map (·.body)
      = [toolsCallPayload (mkUuid 0) tool args, initPayload (mkUuid 1),
         notificationPayload, toolsCallPayload (mkUuid 0) tool args] := by
  refine ⟨?_, ?_, ?_, ?_, ?_, ?_, ?_, ?_, ?_, ?_, ?_, ?_, ?_, ?_⟩ <;>
    simp [get_mcp_tools, call_mcp_tool, _ensure_init_done, _make_request,
      init_session, requestHeaders, baseHeaders, pyDictUpdate, pyDictSet,
      dictLookup, post, mkSt, freshAdapter, _parse_response, headerGet,
      lowerStr, strContains, containsSub, isPrefixL, acceptBoth, mkUuid,
      initPayload, toolsListPayload, toolsCallPayload, notificationPayload,
      respOf, initOkResp, notifyAck, is2xx_200, is2xx_202, Json.pyTruthy,
      h1, h2, hl, hr, hp, hpv, ht]

/-- C1 witness: retry path at statuses 400 then 500; the surfaced error is
the retry's 500. -/
theorem claim_C1_witness :
    (get_mcp_tools loadsW (mkSt (freshAdapter ("http://x") [] .on_fail)
        [respOf 400 ("Bad Request"), initOkResp, notifyAck, respOf 500 ("ISE")])).1
      = .error (.httpStatusError 500 ("ISE")) :=
  (claim_C1_retry_policy 400 500 ("Bad Request") ("ISE") loadsW jW outerW tjW
    Json.null ("PV") ("t") (.obj []) rfl rfl rfl rfl rfl (by decide) rfl).1

/-! ### Claim C2 -/

/-- C2: `initialize` is idempotent — for every `N ≥ 1`, calling it `N` times
against a server that replies successfully performs exactly one handshake
exchange (the initialize POST and the notification POST, 2 HTTP requests in
total, whatever `N`), and every call returns the identical cached result. -/
theorem claim_C2_idempotent (N : Nat) (hN : 1 ≤ N) (mode : InitMode)
    (loads : String → Except PyErr Json) (j outer pv : Json)
    (hl : loads ("INITBODY") = .ok j)
    (hr : dictGet j ("result") (.obj []) = .ok outer)
    (hp : dictGet outer ("protocolVersion") (.str PROTOCOL_VERSION) = .ok pv) :
    (initNTimes loads N (mkSt (freshAdapter ("http://x") [] mode)
        [initOkResp, notifyAck])).1 = .ok (List.replicate N j)
    ∧ (initNTimes loads N (mkSt (freshAdapter ("http://x") [] mode)
        [initOkResp, notifyAck])).2.sent.map (·.body)
      = [initPayload (mkUuid 0), notificationPayload] := by
  obtain ⟨n, rfl⟩ : ∃ n, N = n + 1 := ⟨N - 1, by omega⟩
  constructor <;>
    simp [initNTimes, init_session, baseHeaders, pyDictUpdate, pyDictSet,
      dictLookup, post, mkSt, freshAdapter, _parse_response, headerGet,
      lowerStr, strContains, containsSub, isPrefixL, acceptBoth, mkUuid,
      initPayload, notificationPayload, initOkResp, notifyAck, is2xx_200,
      initNTimes_cached, List.replicate_succ, hl, hr, hp]

/-- C2 witness: three calls, one exchange, three identical results. -/
theorem claim_C2_witness :
    (initNTimes loadsW 3 (mkSt (freshAdapter ("http://x") [] InitMode.auto)
        [initOkResp, notifyAck])).1 = .ok (List.replicate 3 jW) :=
  (claim_C2_idempotent 3 (by decide) InitMode.auto loadsW jW outerW
    (.str ("PV")) rfl rfl rfl).1

/-! ### Claim C6 -/

/-- C6: under the eager policy (`auto`), `get_mcp_tools` on a fresh client
with a successful server performs exactly 3 HTTP calls in order — initialize
request, initialized notification, `tools/list` request; when the handshake
fails its error propagates directly and the list request is never sent. -/
theorem claim_C6_eager_three_calls (s : Nat) (b : String)
    (loads : String → Except PyErr Json) (j outer tj : Json) (pv : String)
    (hfail : is2xx s = false)
    (hl : loads ("INITBODY") = .ok j)
    (hr : dictGet j ("result") (.obj []) = .ok outer)
    (hp : dictGet outer ("protocolVersion") (.str PROTOCOL_VERSION)
      = .ok (.str pv))
    (hpv : pv ≠ "")
    (ht : loads ("TOOLSBODY") = .ok tj) :
    (get_mcp_tools loads (mkSt (freshAdapter ("http://x") [] .auto)
        [initOkResp, notifyAck, respOf 200 ("TOOLSBODY")])).1 = .ok tj
    ∧ (get_mcp_tools loads (mkSt (freshAdapter ("http://x") [] .auto)
        [initOkResp, notifyAck, respOf 200 ("TOOLSBODY")])).2.sent.map (·.body)
      = [initPayload (mkUuid 0), notificationPayload, toolsListPayload (mkUuid 1)]
    ∧ (get_mcp_tools loads (mkSt (freshAdapter ("http://x") [] .auto)
        [respOf s b])).1 = .error (.httpStatusError s b)
    ∧ (get_mcp_tools loads (mkSt (freshAdapter ("http://x") [] .auto)
        [respOf s b])).2.sent.map (·.body) = [initPayload (mkUuid 0)] := by
  refine ⟨?_, ?_, ?_, ?_⟩ <;>
    simp [get_mcp_tools, _ensure_init_done, _make_request, init_session,
      requestHeaders, baseHeaders, pyDictUpdate, pyDictSet, dictLookup, post,
      mkSt, freshAdapter, _parse_response, headerGet, lowerStr, strContains,
      containsSub, isPrefixL, acceptBoth, mkUuid, initPayload,
      toolsListPayload, notificationPayload, respOf, initOkResp, notifyAck,
      is2xx_200, is2xx_202, Json.pyTruthy, hfail, hl, hr, hp, hpv, ht]

/-- C6 witness: the success path and the failing-handshake path at 500. -/
theorem claim_C6_witness :
    (get_mcp_tools loadsW (mkSt (freshAdapter ("http://x") [] .auto)
        [initOkResp, notifyAck, respOf 200 ("TOOLSBODY")])).2.sent.map (·.body)
      = [initPayload (mkUuid 0), notificationPayload, toolsListPayload (mkUuid 1)] :=
  (claim_C6_eager_three_calls 500 ("ISE") loadsW jW outerW tjW ("PV")
    rfl rfl rfl rfl (by decide) rfl).2.1

/-! ### Claim C10 -/

/-- C10: during the handshake the session state (session id, protocol
version, cached result) is fully recorded before the
`notifications/initialized` POST is sent, and the HTTP status of the
notification's response is never inspected — for every notification reply
(status `ns`, any headers, any body), `initialize` still returns the parsed
body, leaves the client in the completed state, and the notification it
sent already carried the just-recorded session id. -/
theorem claim_C10_notification_fire_and_forget (ns : Nat)
    (nh : List (String × String)) (nb : String) (mode : InitMode)
    (loads : String → Except PyErr Json) (j outer pv : Json) (s : String)
    (hs : s ≠ "")
    (hl : loads ("INITBODY") = .ok j)
    (hr : dictGet j ("result") (.obj []) = .ok outer)
    (hp : dictGet outer ("protocolVersion") (.str PROTOCOL_VERSION) = .ok pv) :
    (init_session loads (mkSt (freshAdapter ("http://x") [] mode)
        [⟨200, [("content-type", "application/json"), ("Mcp-Session-Id", s)],
          "INITBODY"⟩, ⟨ns, nh, nb⟩])).1 = .ok j
    ∧ (init_session loads (mkSt (freshAdapter ("http://x") [] mode)
        [⟨200, [("content-type", "application/json"), ("Mcp-Session-Id", s)],
          "INITBODY"⟩, ⟨ns, nh, nb⟩])).2.adapter.init_result = some j
    ∧ (init_session loads (mkSt (freshAdapter ("http://x") [] mode)
        [⟨200, [("content-type", "application/json"), ("Mcp-Session-Id", s)],
          "INITBODY"⟩, ⟨ns, nh, nb⟩])).2.adapter.session_id = some s
    ∧ (init_session loads (mkSt (freshAdapter ("http://x") [] mode)
        [⟨200, [("content-type", "application/json"), ("Mcp-Session-Id", s)],
          "INITBODY"⟩, ⟨ns, nh, nb⟩])).2.adapter.protocol_version = some pv
    ∧ (init_session loads (mkSt (freshAdapter ("http://x") [] mode)
        [⟨200, [("content-type", "application/json"), ("Mcp-Session-Id", s)],
          "INITBODY"⟩, ⟨ns, nh, nb⟩])).2.sent.map (·.body)
      = [initPayload (mkUuid 0), notificationPayload]
    ∧ ((init_session loads (mkSt (freshAdapter ("http://x") [] mode)
        [⟨200, [("content-type", "application/json"), ("Mcp-Session-Id", s)],
          "INITBODY"⟩, ⟨ns, nh, nb⟩])).2.sent.getD 1 ⟨"", [], .null⟩).hdrs
      = [("Accept", acceptBoth), ("Mcp-Session-Id", s)] := by
  refine ⟨?_, ?_, ?_, ?_, ?_, ?_⟩ <;>
    simp [init_session, baseHeaders, pyDictUpdate, pyDictSet, dictLookup,
      post, mkSt, freshAdapter, _parse_response, headerGet, lowerStr,
      strContains, containsSub, isPrefixL, acceptBoth, mkUuid, initPayload,
      notificationPayload, is2xx_200, List.getD, hs, hl, hr, hp]

/-- C10 witness: a 500 notification reply does not disturb the handshake. -/
theorem claim_C10_witness :
    (init_session loadsW (mkSt (freshAdapter ("http://x") [] InitMode.auto)
        [⟨200, [("content-type", "application/json"), ("Mcp-Session-Id", "sess-1")],
          "INITBODY"⟩, ⟨500, [], "boom"⟩])).1 = .ok jW :=
  (claim_C10_notification_fire_and_forget 500 [] ("boom") InitMode.auto
    loadsW jW outerW (.str ("PV")) ("sess-1") (by decide) rfl rfl rfl).1

/-! ### Claim C3 (corrected) -/

/-- C3 counterexample: a handshake response that carries the session id
header with value `""` — the claim then requires every subsequent request to
carry `Mcp-Session-Id: ""` — but the source only stores a *truthy* session
id (`if session_id:`), so the subsequent request carries no session header
at all (and no protocol-version header either, the negotiated version here
being the likewise-falsy `""`). -/
def loadsC3 : String → Except PyErr Json := fun s =>
  if s = "G" then .ok (.obj [("result", .obj [("protocolVersion", .str (""))])])
  else if s = "R" then .ok Json.null
  else .error (.valueError ("bad json"))

theorem claim_C3_counterexample :
    headerGet [("Mcp-Session-Id", "")] ("Mcp-Session-Id") = some ("")
    ∧ (get_mcp_tools loadsC3 (mkSt (freshAdapter ("http://x") [] .auto)
        [⟨200, [("Mcp-Session-Id", "")], "G"⟩, notifyAck, ⟨200, [], "R"⟩])).1
      = .ok Json.null
    ∧ ((get_mcp_tools loadsC3 (mkSt (freshAdapter ("http://x") [] .auto)
        [⟨200, [("Mcp-Session-Id", "")], "G"⟩, notifyAck, ⟨200, [], "R"⟩])).2.sent.getD 2
          ⟨"", [], .null⟩).hdrs = [("Accept", acceptBoth)]
    ∧ (get_mcp_tools loadsC3 (mkSt (freshAdapter ("http://x") [] .auto)
        [⟨200, [("Mcp-Session-Id", "")], "G"⟩, notifyAck, ⟨200, [], "R"⟩])).2.adapter.session_id
      = Option.none :=
  ⟨rfl, rfl, rfl, rfl⟩

/-- C3 amended: before any handshake (and with the caller's extra headers
not themselves binding one) outbound requests carry no `Mcp-Session-Id`
header; after a handshake whose response carried a *non-empty* session id
`s`, every subsequent request carries `Mcp-Session-Id: s`, and a negotiated
*non-empty* protocol-version string `pv` is carried as
`MCP-Protocol-Version: pv`. -/
theorem claim_C3_header_propagation (u : String) (mode : InitMode)
    (extra : List (String × String))
    (hx : dictLookup extra ("Mcp-Session-Id") = Option.none)
    (loads : String → Except PyErr Json) (j outer tj : Json) (pv s : String)
    (hs : s ≠ "") (hpv : pv ≠ "")
    (hl : loads ("INITBODY") = .ok j)
    (hr : dictGet j ("result") (.obj []) = .ok outer)
    (hp : dictGet outer ("protocolVersion") (.str PROTOCOL_VERSION)
      = .ok (.str pv))
    (ht : loads ("TOOLSBODY") = .ok tj) :
    requestHeaders (freshAdapter u extra mode) = .ok (baseHeaders extra)
    ∧ dictLookup (baseHeaders extra) ("Mcp-Session-Id") = Option.none
    ∧ ((get_mcp_tools loads (mkSt (freshAdapter ("http://x") [] .auto)
        [⟨200, [("Mcp-Session-Id", s)], "INITBODY"⟩, notifyAck,
         respOf 200 ("TOOLSBODY")])).2.sent.getD 2 ⟨"", [], .null⟩).hdrs
      = [("Accept", acceptBoth), ("Mcp-Session-Id", s),
         ("MCP-Protocol-Version", pv)] := by
  refine ⟨rfl, ?_, ?_⟩
  · unfold baseHeaders
    rw [dictLookup_pyDictUpdate_none extra _ _ hx]
    rfl
  · simp [get_mcp_tools, _ensure_init_done, _make_request, init_session,
      requestHeaders, baseHeaders, pyDictUpdate, pyDictSet, dictLookup, post,
      mkSt, freshAdapter, _parse_response, headerGet, lowerStr, strContains,
      containsSub, isPrefixL, acceptBoth, mkUuid, initPayload,
      toolsListPayload, notificationPayload, respOf, notifyAck, is2xx_200,
      is2xx_202, Json.pyTruthy, List.getD, hs, hpv, hl, hr, hp, ht]

/-- C3 amended witness. -/
theorem claim_C3_witness :
    ((get_mcp_tools loadsW (mkSt (freshAdapter ("http://x") [] .auto)
        [⟨200, [("Mcp-Session-Id", "sess-9")], "INITBODY"⟩, notifyAck,
         respOf 200 ("TOOLSBODY")])).2.sent.getD 2 ⟨"", [], .null⟩).hdrs
      = [("Accept", acceptBoth), ("Mcp-Session-Id", "sess-9"),
         ("MCP-Protocol-Version", "PV")] :=
  (claim_C3_header_propagation ("http://u") InitMode.none [] rfl loadsW jW
    outerW tjW ("PV") ("sess-9") (by decide) (by decide) rfl rfl rfl rfl).2.2

/-! ### Claim C8 (corrected) -/

/-- C8 counterexample: the header dict is `{"Accept": default, **extra}` —
a caller-supplied `Accept` entry *overrides* the default, so a request of a
client constructed with `headers={"Accept": "application/json"}` does not
carry the dual `application/json, text/event-stream` value the claim
requires of every configuration. -/
theorem claim_C8_counterexample :
    baseHeaders [("Accept", "application/json")] = [("Accept", "application/json")]
    ∧ dictLookup (baseHeaders [("Accept", "application/json")]) ("Accept")
      = some ("application/json")
    ∧ ("application/json" : String) ≠ acceptBoth
    ∧ ((_make_request (fun s => .ok (.str s)) (toolsListPayload (mkUuid 0)) 1
        (mkSt (freshAdapter ("http://x") [("Accept", "application/json")] .none)
          [⟨200, [], "R"⟩])).2.sent.getD 0 ⟨"", [], .null⟩).hdrs
      = [("Accept", "application/json")] :=
  ⟨rfl, rfl, by decide, rfl⟩

/-- C8 amended: when the caller-supplied extra headers do not bind `Accept`
themselves (nor the session or version header names, and bind each of their
own keys once), every assembled header dict carries the dual-media `Accept`
value together with every extra header, and — once a non-empty session id
and a non-empty negotiated version string are stored — the session and
version headers as well, all present simultaneously; a caller-supplied
`Accept` entry, by contrast, replaces the default. -/
theorem claim_C8_headers_union (u : String) (mode : InitMode)
    (extra : List (String × String))
    (hnd : (extra.map Prod.fst).Nodup)
    (hA : dictLookup extra ("Accept") = Option.none)
    (hS : dictLookup extra ("Mcp-Session-Id") = Option.none)
    (hP : dictLookup extra ("MCP-Protocol-Version") = Option.none)
    (s pv : String) (r0 : Json) (hs : s ≠ "") (hpv : pv ≠ "") :
    dictLookup (baseHeaders extra) ("Accept") = some acceptBoth
    ∧ (∀ kv ∈ extra, dictLookup (baseHeaders extra) kv.1 = some kv.2)
    ∧ requestHeaders ({ base_url := u, headers := extra, init_mode := mode,
                        session_id := some s, init_result := some r0,
                        protocol_version := some (.str pv) } : Adapter)
      = .ok (pyDictSet (pyDictSet (baseHeaders extra) ("Mcp-Session-Id") s)
          ("MCP-Protocol-Version") pv)
    ∧ dictLookup (pyDictSet (pyDictSet (baseHeaders extra) ("Mcp-Session-Id") s)
          ("MCP-Protocol-Version") pv) ("Accept") = some acceptBoth
    ∧ dictLookup (pyDictSet (pyDictSet (baseHeaders extra) ("Mcp-Session-Id") s)
          ("MCP-Protocol-Version") pv) ("Mcp-Session-Id") = some s
    ∧ dictLookup (pyDictSet (pyDictSet (baseHeaders extra) ("Mcp-Session-Id") s)
          ("MCP-Protocol-Version") pv) ("MCP-Protocol-Version") = some pv
    ∧ (∀ kv ∈ extra,
        dictLookup (pyDictSet (pyDictSet (baseHeaders extra) ("Mcp-Session-Id") s)
          ("MCP-Protocol-Version") pv) kv.1 = some kv.2) := by
  have hAcc : dictLookup (baseHeaders extra) ("Accept") = some acceptBoth := by
    unfold baseHeaders
    rw [dictLookup_pyDictUpdate_none extra _ _ hA]
    rfl
  have hMem : ∀ kv ∈ extra, dictLookup (baseHeaders extra) kv.1 = some kv.2 := by
    intro kv hkv
    unfold baseHeaders
    exact dictLookup_pyDictUpdate_mem extra _ hnd kv.1 kv.2 (by simpa using hkv)
  have hKeyS : ∀ kv ∈ extra, (kv.1 == "Mcp-Session-Id") = false := by
    intro kv hkv
    by_contra hcon
    have h3 : kv.1 = "Mcp-Session-Id" := by
      cases h4 : (kv.1 == "Mcp-Session-Id")
      · exact absurd h4 hcon
      · simpa using h4
    have h5 := dictLookup_isSome_of_mem extra kv.1 kv.2 (by simpa using hkv)
    rw [h3, hS] at h5
    simp at h5
  have hKeyP : ∀ kv ∈ extra, (kv.1 == "MCP-Protocol-Version") = false := by
    intro kv hkv
    by_contra hcon
    have h3 : kv.1 = "MCP-Protocol-Version" := by
      cases h4 : (kv.1 == "MCP-Protocol-Version")
      · exact absurd h4 hcon
      · simpa using h4
    have h5 := dictLookup_isSome_of_mem extra kv.1 kv.2 (by simpa using hkv)
    rw [h3, hP] at h5
    simp at h5
  refine ⟨hAcc, hMem, ?_, ?_, ?_, ?_, ?_⟩
  · simp [requestHeaders, Json.pyTruthy, hs, hpv]
  · rw [dictLookup_pyDictSet_ne _ _ _ _ (by decide),
      dictLookup_pyDictSet_ne _ _ _ _ (by decide)]
    exact hAcc
  · rw [dictLookup_pyDictSet_ne _ _ _ _ (by decide)]
    exact dictLookup_pyDictSet_self _ _ _
  · exact dictLookup_pyDictSet_self _ _ _
  · intro kv hkv
    rw [dictLookup_pyDictSet_ne _ _ _ _ (by
        rw [show ("MCP-Protocol-Version" == kv.1)
          = (kv.1 == "MCP-Protocol-Version") from by
            cases h4 : (kv.1 == "MCP-Protocol-Version") <;> simp_all [BEq.comm]]
        exact hKeyP kv hkv),
      dictLookup_pyDictSet_ne _ _ _ _ (by
        rw [show ("Mcp-Session-Id" == kv.1)
          = (kv.1 == "Mcp-Session-Id") from by
            cases h4 : (kv.1 == "Mcp-Session-Id") <;> simp_all [BEq.comm]]
        exact hKeyS kv hkv)]
    exact hMem kv hkv

/-- C8 amended witness. -/
theorem claim_C8_witness :
    dictLookup (baseHeaders [("Authorization", "Bearer token")]) ("Accept")
      = some acceptBoth :=
  (claim_C8_headers_union ("http://u") InitMode.auto
    [("Authorization", "Bearer token")] (by decide) rfl rfl rfl ("sess-1")
    ("PV") Json.null (by decide) (by decide)).1

/-! ### Claim C9 (corrected) -/

/-- C9 counterexample decoder. -/
def loadsC9 : String → Except PyErr Json := fun s =>
  if s = "GOOD" then .ok (.obj [("result", .obj [("protocolVersion", .str ("V"))])])
  else .error (.valueError ("bad json"))

/-- C9 counterexample: a first `initialize` whose response carries session
id `A` but whose body fails to parse records the session id and then raises
(the handshake result stays absent); a second `initialize` re-runs the
handshake and overwrites the session id with `B` — so a populated
`sessionId` is not stable across a sequence of operations. -/
theorem claim_C9_counterexample :
    (runOps loadsC9 [.opInit] (mkSt (freshAdapter ("http://x") [] .none)
        [⟨200, [("content-type", "text/event-stream"), ("Mcp-Session-Id", "A")], ""⟩,
         ⟨200, [("Mcp-Session-Id", "B")], "GOOD"⟩, notifyAck])).adapter.session_id
      = some ("A")
    ∧ (runOps loadsC9 [.opInit, .opInit] (mkSt (freshAdapter ("http://x") [] .none)
        [⟨200, [("content-type", "text/event-stream"), ("Mcp-Session-Id", "A")], ""⟩,
         ⟨200, [("Mcp-Session-Id", "B")], "GOOD"⟩, notifyAck])).adapter.session_id
      = some ("B")
    ∧ ("A" : String) ≠ ("B" : String) :=
  ⟨rfl, rfl, by decide⟩

/-- C9 amended: once the handshake has completed (the handshake result is
cached), no sequence of operations — `initialize`, `get_mcp_tools`,
`call_mcp_tool`, under any policy and any server behaviour — ever changes
or clears `sessionId`, `protocolVersion` or the cached handshake result; an
`initialize` that fails after its response supplied a session id, however,
leaves that id recorded for a later handshake to overwrite. -/
theorem claim_C9_stability_after_handshake (loads : String → Except PyErr Json)
    (ops : List Op) (st : St) (r : Json)
    (h : st.adapter.init_result = some r) :
    (runOps loads ops st).adapter.session_id = st.adapter.session_id
    ∧ (runOps loads ops st).adapter.protocol_version
      = st.adapter.protocol_version
    ∧ (runOps loads ops st).adapter.init_result = st.adapter.init_result := by
  rw [runOps_adapter loads ops st (by rw [h]; rfl)]
  exact ⟨rfl, rfl, rfl⟩

/-- C9 amended witness: a handshaked client across three operations. -/
theorem claim_C9_witness :
    (runOps loadsW [.opTools, .opInit, .opCall ("t") (.obj [])]
        (mkSt { freshAdapter ("http://x") [] .auto with
            init_result := some Json.null }
          [respOf 200 ("TOOLSBODY"), respOf 400 ("err")])).adapter.session_id
      = (mkSt { freshAdapter ("http://x") [] .auto with
            init_result := some Json.null }
          [respOf 200 ("TOOLSBODY"), respOf 400 ("err")]).adapter.session_id :=
  (claim_C9_stability_after_handshake loadsW
    [.opTools, .opInit, .opCall ("t") (.obj [])]
    (mkSt { freshAdapter ("http://x") [] .auto with
        init_result := some Json.null }
      [respOf 200 ("TOOLSBODY"), respOf 400 ("err")]) Json.null rfl).1

/-! ### Claim C4 -/

/-- C4: for every SSE response body containing at least one complete data
event, the parsed result equals the JSON payload of the last complete event,
with all earlier events discarded; and an SSE body whose final event is not
followed by a trailing blank line still parses that final event correctly.
Bodies are characterised by their `splitlines` decomposition into
blank-terminated events (`sseLinesOf`) or with the final blank line missing
(`sseLinesNT`); each event is a non-empty block of `data:` lines, payloads
not starting with a space (the stripping of the single separator space is
then lossless) and the decoder is total (`fun s => .ok (jl s)`, i.e. every
payload is well-formed JSON). -/
theorem claim_C4_sse_last_event (jl : String → Json)
    (evs : List (List String)) (lastEv : List String) (text1 text2 : String)
    (hev : ∀ ev ∈ evs ++ [lastEv], ev ≠ [])
    (hsp : ∀ ev ∈ evs ++ [lastEv], ∀ p ∈ ev, pyStartswith p (" ") = false)
    (h1 : splitlines text1 = sseLinesOf (evs ++ [lastEv]))
    (h2 : splitlines text2 = sseLinesNT (evs ++ [lastEv])) :
    _parse_sse_response (fun s => .ok (jl s)) text1
        = .ok (jl (String.intercalate ("\n") lastEv))
      ∧ _parse_sse_response (fun s => .ok (jl s)) text2
        = .ok (jl (String.intercalate ("\n") lastEv)) := by
  constructor
  · unfold _parse_sse_response
    rw [h1, sseLoop_linesOf jl evs lastEv hev hsp Option.none]
  · unfold _parse_sse_response
    rw [h2, sseLoop_linesNT jl evs lastEv hev hsp Option.none]

/-- C4 witness: a two-event body parses to the second event's payload, with
and without the trailing blank line. -/
theorem claim_C4_witness :
    _parse_sse_response (fun s => .ok (.str s)) ("data: a\n\ndata: b\n\n")
        = .ok (.str (String.intercalate ("\n") ["b"]))
      ∧ _parse_sse_response (fun s => .ok (.str s)) ("data: a\n\ndata: b")
        = .ok (.str (String.intercalate ("\n") ["b"])) :=
  claim_C4_sse_last_event Json.str [["a"]] ["b"] ("data: a\n\ndata: b\n\n")
    ("data: a\n\ndata: b") (by decide) (by decide) (by decide) (by decide)

/-! ### Claim C5 -/

/-- A 200 response with an event-stream content type and the given body. -/
def sseOkResp (text : String) : HttpResponse :=
  { status := 200, headers := [("content-type", "text/event-stream")], body := text }

/-- C5: an SSE body with zero data events (no `data:` line; the empty body
included) parses to the `ValueError` the source raises (the spec's
`ProtocolError`), and such an error arising from a 2xx response propagates
from `_make_request` after exactly one HTTP attempt under every policy —
it is never retried, `lazyRetry` included. -/
theorem claim_C5_protocol_error (loads : String → Except PyErr Json)
    (mode : InitMode) (text : String)
    (h : ∀ l ∈ splitlines text, pyStartswith l ("data:") = false) :
    _parse_sse_response loads text
        = .error (.valueError ("No data field found in SSE response"))
      ∧ _parse_sse_response loads ("")
        = .error (.valueError ("No data field found in SSE response"))
      ∧ (_make_request loads (toolsListPayload (mkUuid 0)) 1
            (mkSt (freshAdapter ("http://srv") [] mode) [sseOkResp text])).1
        = .error (.valueError ("No data field found in SSE response"))
      ∧ (_make_request loads (toolsListPayload (mkUuid 0)) 1
            (mkSt (freshAdapter ("http://srv") [] mode) [sseOkResp text])).2.sent.length
        = 1 := by
  have hparse : _parse_sse_response loads text
      = .error (.valueError ("No data field found in SSE response")) := by
    unfold _parse_sse_response
    rw [sseLoop_noData loads _ h Option.none]
  refine ⟨hparse, rfl, ?_, ?_⟩ <;>
    simp [_make_request, requestHeaders, baseHeaders, pyDictUpdate, post, mkSt,
      freshAdapter, _parse_response, headerGet, lowerStr, strContains,
      containsSub, isPrefixL, is2xx, sseOkResp, hparse]

/-- C5 witness: a body of non-data lines (and policy `lazyRetry`). -/
theorem claim_C5_witness :
    (_make_request (fun s => .ok (.str s)) (toolsListPayload (mkUuid 0)) 1
        (mkSt (freshAdapter ("http://srv") [] InitMode.on_fail)
          [sseOkResp ("event: message\n\n")])).1
      = .error (.valueError ("No data field found in SSE response")) :=
  (claim_C5_protocol_error (fun s => .ok (.str s)) InitMode.on_fail
    ("event: message\n\n") (by decide)).2.2.1

/-! ### Claim C7 (corrected) -/

/-- C7 counterexample: the source strips every leading space after the
`data:` prefix (`lstrip(" ")`), not at most one.  On the concrete body
`"data:   X\n\n"` the accumulated payload is `"X"`, not the `"  X"` the
claim predicts (prefix plus a single space removed). -/
theorem claim_C7_counterexample :
    _parse_sse_response (fun s => .ok (.str s)) ("data:   X\n\n")
        = .ok (.str ("X"))
      ∧ Json.str ("X") ≠ Json.str ("  X") := by
  refine ⟨rfl, ?_⟩
  intro hcontra
  simp only [Json.str.injEq] at hcontra
  exact absurd hcontra (by decide)

/-- C7 amended: for every line beginning with the `data:` prefix, the text
accumulated into the event buffer is the line with the prefix and all
following spaces removed — a payload preceded by `k` spaces loses every one
of them, for every `k`. -/
theorem claim_C7_strip_all_spaces (jl : String → Json) (k : Nat) (p : String)
    (text : String) (hp : pyStartswith p (" ") = false)
    (hsplit : splitlines text
      = ["data:" ++ (String.mk (List.replicate k ' ') ++ p), ""]) :
    _parse_sse_response (fun s => .ok (jl s)) text = .ok (jl p) := by
  have hstart : pyStartswith ("data:" ++ (String.mk (List.replicate k ' ') ++ p))
      ("data:") = true := pyStartswith_append _ _
  have hstrip : stripDataLine ("data:" ++ (String.mk (List.replicate k ' ') ++ p))
      = p := by
    unfold stripDataLine
    rw [String.data_append, String.data_append,
      show ("data:").data = ['d', 'a', 't', 'a', ':'] from rfl]
    simp only [List.cons_append, List.drop_succ_cons, List.drop_zero, List.nil_append]
    rw [dropWhile_replicate_space, dropWhile_of_not_startswith p hp, string_mk_data]
  unfold _parse_sse_response
  rw [hsplit]
  rw [sseLoop]
  simp only [hstart, if_true]
  rw [hstrip]
  rw [sseLoop]
  simp only [show pyStartswith ("") ("data:") = false from rfl, Bool.false_eq_true,
    if_false, show ("" == "") = true from rfl, if_true, List.nil_append,
    List.isEmpty_cons]
  rfl

/-- C7 amended witness: three leading spaces, all stripped. -/
theorem claim_C7_witness :
    _parse_sse_response (fun s => .ok (.str s)) ("data:   X\n\n")
      = .ok (.str ("X")) :=
  claim_C7_strip_all_spaces Json.str 3 ("X") ("data:   X\n\n")
    (by decide) (by decide)

end MCPHero
